import Mathlib

/-!
# Verification of the SQL tool-calling agent (`sql_agent.ipynb`)

A shallow embedding of the notebook's core: the four data-access tools
(`query_sql_database`, `info_sql_database`, `list_sql_database`,
`query_sql_checker`), the dispatcher `execute_function_call`, and the
bounded agent loop `SQLAgentWithTools.ask`.

Modelling conventions:
* Python values serialized with `json.dumps` are modelled by the inductive
  `Json`; a tool returns the `Json` value whose dump the Python function
  returns.  Python `dict`s are association lists built in insertion order
  (`dictInsert` models `d[k] = v`).
* External collaborators are parameters: the relational store is a pure
  `runQuery` function and a schema (`List Table`); the reasoning engine is
  a function from the conversation to an assistant message; Python's
  `json.loads` is an abstract parser `String → Except String _` (`.error`
  models a raised `json.JSONDecodeError`).
* A Python exception propagating out of a function is modelled by the
  `.error` constructor of `Except String _`; functions that catch all
  exceptions are total and return plain `Json`.
-/

/-- JSON values, the shape `json.dumps` serializes.  Objects are ordered
association lists, as Python dicts are. -/
inductive Json where
  | null
  | bool (b : Bool)
  | num (n : Int)
  | str (s : String)
  | arr (elems : List Json)
  | obj (fields : List (String × Json))

/-- Look up a field of a JSON object (first occurrence); `none` on
non-objects or missing keys.  Models `parsed[k]` / `k in parsed`. -/
def Json.lookupField : Json → String → Option Json
  | Json.obj fields, k => fields.lookup k
  | _, _ => none

/-- Python `d[k] = v` on a dict rendered as an association list: replace the
value at an existing key in place, else append. -/
def dictInsert (d : List (String × Json)) (k : String) (v : Json) :
    List (String × Json) :=
  if d.any (fun p => p.1 = k) then
    d.map (fun p => if p.1 = k then (k, v) else p)
  else
    d ++ [(k, v)]

/-- One column of `PRAGMA table_info`: name, declared type, not-null flag,
primary-key flag (`col[1], col[2], col[3], col[5]` in the source). -/
structure Column where
  name : String
  data_type : String
  not_null : Bool
  primary_key : Bool

/-- One table of the SQLite schema: its name (a row of `sqlite_master`),
its columns, and its rows as tuples of values in column order. -/
structure Table where
  name : String
  columns : List Column
  rows : List (List Json)

/-- A row of a query result as `df.to_dict('records')` renders it:
a column-name → value mapping. -/
abbrev Row := List (String × Json)

/-- `query_sql_database` (cell 1): run the query, then
  * empty result → only the neutral no-rows message;
  * more than 100 rows → first 100 records, the true `total_rows`, and a
    message flagging the truncation;
  * otherwise → all records plus `total_rows`.
`runQuery` models `pd.read_sql_query` against `chinook.db`; its `.error`
is the exception the `except` clause converts to a structured error. -/
def query_sql_database (runQuery : String → Except String (List Row))
    (query : String) : Json :=
  match runQuery query with
  | Except.error e =>
      Json.obj [("error", Json.str e),
        ("message", Json.str
          "Query failed. Please check your SQL syntax and table/column names.")]
  | Except.ok rows =>
      if rows.isEmpty then
        Json.obj [("message", Json.str
          "Query executed successfully but returned no results.")]
      else if rows.length > 100 then
        Json.obj [("message", Json.str
            ("Query returned " ++ toString rows.length ++
              " rows. Showing first 100 rows.")),
          ("data", Json.arr ((rows.take 100).map Json.obj)),
          ("total_rows", Json.num rows.length)]
      else
        Json.obj [("message", Json.str
            ("Query returned " ++ toString rows.length ++ " rows.")),
          ("data", Json.arr (rows.map Json.obj)),
          ("total_rows", Json.num rows.length)]

/-- Python `s.split(',')` over the character list: split at every comma,
keeping empty pieces (`"".split(',') == ['']`). -/
def splitCommaAux : List Char → List Char → List (List Char)
  | [], acc => [acc.reverse]
  | c :: cs, acc =>
      if c = ',' then acc.reverse :: splitCommaAux cs []
      else splitCommaAux cs (c :: acc)

/-- Python `tables.split(',')`. -/
def pySplitComma (s : String) : List String :=
  (splitCommaAux s.data []).map String.mk

/-- Python `s.strip()`: drop whitespace from both ends. -/
def pyStrip (s : String) : String :=
  String.mk
    (((s.data.dropWhile Char.isWhitespace).reverse.dropWhile
      Char.isWhitespace).reverse)

/-- The comma-split, stripped table-name list of `info_sql_database`:
`[table.strip() for table in tables.split(',')]`. -/
def parsedTableNames (tables : String) : List String :=
  (pySplitComma tables).map pyStrip

/-- Sample rows of a table as `info_sql_database` renders them: the first 3
rows (`LIMIT 3`), each zipped with the column names into a mapping. -/
def sampleData (t : Table) : List Json :=
  (t.rows.take 3).map (fun r =>
    Json.obj (List.zip (t.columns.map Column.name) r))

/-- The per-table success entry of `info_sql_database`: full column
metadata, up to 3 sample rows, and the sample-row count. -/
def tableInfoJson (t : Table) : Json :=
  Json.obj [("schema", Json.arr (t.columns.map (fun c =>
      Json.obj [("column_name", Json.str c.name),
        ("data_type", Json.str c.data_type),
        ("not_null", Json.bool c.not_null),
        ("primary_key", Json.bool c.primary_key)]))),
    ("sample_rows", Json.arr (sampleData t)),
    ("row_count", Json.num (sampleData t).length)]

/-- The value `info_sql_database` stores at key `tn` of its `tables` dict:
a per-table error entry when the name is absent from the schema
(`sqlite_master` lookup empty), the schema/sample entry otherwise. -/
def tableEntry (db : List Table) (tn : String) : Json :=
  match db.find? (fun t => t.name = tn) with
  | none =>
      Json.obj [("error", Json.str
        ("Table '" ++ tn ++ "' does not exist"))]
  | some t => tableInfoJson t

/-- The `tables` dict of `info_sql_database`, built by the source's loop
`result["tables"][table_name] = ...` over the parsed names. -/
def infoTablesDict (db : List Table) (tables : String) :
    List (String × Json) :=
  (parsedTableNames tables).foldl
    (fun d tn => dictInsert d tn (tableEntry db tn)) []

/-- `info_sql_database` (cell 1): per-table schema information and sample
rows for a comma-separated list of names, with a per-table error entry for
names absent from the schema.  `db` models the SQLite schema. -/
def info_sql_database (db : List Table) (tables : String) : Json :=
  Json.obj [("tables", Json.obj (infoTablesDict db tables))]

/-- The table-name list `list_sql_database` obtains from
`SELECT name FROM sqlite_master WHERE type='table' ORDER BY name`:
all table names in ascending lexical order. -/
def listedTableNames (db : List Table) : List String :=
  List.insertionSort (fun a b => a ≤ b) (db.map Table.name)

/-- `list_sql_database` (cell 1): all table names in the order the
`ORDER BY name` query yields them, plus a count message. -/
def list_sql_database (db : List Table) : Json :=
  Json.obj [("message", Json.str
      ("Found " ++ toString (listedTableNames db).length ++
        " tables in the database")),
    ("tables", Json.arr ((listedTableNames db).map Json.str))]

/-- The structured response `query_sql_checker` synthesizes when the
engine's reply is not parseable JSON (the `except json.JSONDecodeError`
branch).  Note the keys: `has_errors` and `errors`, not the `has_error`
shape the tool's own system prompt demands. -/
def checkerFallback (query : String) (explanation : Json) : Json :=
  Json.obj [("has_errors", Json.bool false),
    ("errors", Json.arr []),
    ("corrected_query", Json.str query),
    ("explanation", explanation)]

/-- `query_sql_checker` (cell 1): ask the engine to validate `query`.
`resp` models the `client.chat.completions.create` call: `.error` an
exception caught by the outer `except`, `.ok content` the message content
(`none` when the API returns no text, which the source turns into a raised
and immediately caught `JSONDecodeError`).  `parse` models `json.loads`. -/
def query_sql_checker (resp : Except String (Option String))
    (parse : String → Except String Json) (query : String) : Json :=
  match resp with
  | Except.error e =>
      Json.obj [("error", Json.str e),
        ("message", Json.str "Failed to validate query.")]
  | Except.ok none => checkerFallback query Json.null
  | Except.ok (some content) =>
      match parse content with
      | Except.ok result => result
      | Except.error _ => checkerFallback query (Json.str content)

/-- The parsed argument payload of one tool call: the string-valued JSON
mapping `json.loads(tool_call.function.arguments)` yields (all registered
tools declare only string parameters). -/
abbrev Args := List (String × String)

/-- The external collaborators a tool invocation touches: the relational
store behind `query_sql_database`, the schema behind `info`/`list`, the
reasoning-engine reply of the checker (a function of the query), and the
`json.loads` the checker applies to that reply. -/
structure Env where
  runQuery : String → Except String (List Row)
  db : List Table
  checkerResp : String → Except String (Option String)
  parseJson : String → Except String Json

/-- The keys of `available_functions` (cell 2). -/
def registeredNames : List String :=
  ["query_sql_database", "info_sql_database", "list_sql_database",
    "query_sql_checker"]

/-- Python's `function(**arguments)` for a function of exactly one required
string parameter `param`: succeeds when the payload is exactly that
parameter, otherwise raises `TypeError` (the `.error` case), which the
dispatcher's `except` clause catches. -/
def expandSingleArg (param : String) (args : Args) (f : String → Json) :
    Except String Json :=
  match args with
  | [(k, v)] =>
      if k = param then Except.ok (f v)
      else Except.error ("got an unexpected keyword argument '" ++ k ++ "'")
  | [] => Except.error ("missing 1 required positional argument: '" ++
      param ++ "'")
  | _ => Except.error "got unexpected keyword arguments"

/-- `function(**arguments)` for the registered non-`list` tools: each takes
one required string parameter. -/
def callWithArgs (env : Env) (function_name : String) (args : Args) :
    Except String Json :=
  if function_name = "query_sql_database" then
    expandSingleArg "query" args (fun q => query_sql_database env.runQuery q)
  else if function_name = "info_sql_database" then
    expandSingleArg "tables" args (fun t => info_sql_database env.db t)
  else if function_name = "query_sql_checker" then
    expandSingleArg "query" args
      (fun q => query_sql_checker (env.checkerResp q) env.parseJson q)
  else
    Except.error ("Function " ++ function_name ++ " not callable")

/-- The dispatcher `execute_function_call` (cell 5): look the name up in
`available_functions`; unknown names yield the structured not-found error;
`list_sql_database` is called with no arguments regardless of the payload;
every other registered tool is called with the payload expanded as named
parameters, and an exception raised by the invocation is wrapped into
`{"error": str(e)}`.  Total: no exception ever escapes the dispatcher. -/
def execute_function_call (env : Env) (function_name : String)
    (arguments : Args) : Json :=
  if function_name ∈ registeredNames then
    match
      (if function_name = "list_sql_database" then
        Except.ok (list_sql_database env.db)
      else
        callWithArgs env function_name arguments) with
    | Except.ok r => r
    | Except.error e => Json.obj [("error", Json.str e)]
  else
    Json.obj [("error", Json.str
      ("Function " ++ function_name ++ " not found"))]

/-- One engine-requested tool invocation (`tool_call` of the OpenAI reply):
an opaque identifier, a tool name, and a JSON-encoded argument payload. -/
structure ToolCall where
  id : String
  name : String
  arguments : String

/-- The assistant message a reasoning-engine call returns: optional text
content and the (possibly empty) ordered tool-call list; an empty list
models the API's falsy `tool_calls`. -/
structure AssistantMessage where
  content : Option String
  tool_calls : List ToolCall

/-- One entry of the conversation `messages` list of `ask`. -/
inductive Message where
  | system (content : String)
  | user (content : String)
  | assistant (m : AssistantMessage)
  | tool (tool_call_id : String) (name : String) (content : Json)

/-- The system prompt of cell 4 after `.format(dialect="SQLite", top_k=5)`. -/
def system_message : String :=
  "\nYou are an agent designed to interact with a SQL database.\n" ++
  "Given an input question, create a syntactically correct SQLite query to run,\n" ++
  "then look at the results of the query and return the answer. Unless the user\n" ++
  "specifies a specific number of examples they wish to obtain, always limit your\n" ++
  "query to at most 5 results.\n\n" ++
  "You can order the results by a relevant column to return the most interesting\n" ++
  "examples in the database. Never query for all the columns from a specific table,\n" ++
  "only ask for the relevant columns given the question.\n\n" ++
  "You MUST double check your query before executing it. If you get an error while\n" ++
  "executing a query, rewrite the query and try again.\n\n" ++
  "DO NOT make any DML statements (INSERT, UPDATE, DELETE, DROP etc.) to the\n" ++
  "database.\n\n" ++
  "To start you should ALWAYS look at the tables in the database to see what you\n" ++
  "can query. Do NOT skip this step.\n\n" ++
  "Then you should query the schema of the most relevant tables.\n"

/-- The fixed exhaustion message `ask` returns when the iteration budget
runs out. -/
def maxIterationsMessage : String :=
  "Maximum iterations reached. Please try a simpler question."

/-- The ACT phase of one loop iteration: for each tool call in emission
order, `json.loads` its arguments (`parseArgs`), dispatch, and append the
`tool` message.  Returns the extended conversation, the number of
dispatcher invocations performed, and `some e` when a parse failure raised
`e` out of the loop (nothing in `ask` catches it). -/
def runToolCalls (env : Env) (parseArgs : String → Except String Args) :
    List ToolCall → List Message → Nat → List Message × Nat × Option String
  | [], msgs, ti => (msgs, ti, none)
  | tc :: rest, msgs, ti =>
      match parseArgs tc.arguments with
      | Except.error e => (msgs, ti, some e)
      | Except.ok args =>
          let r := execute_function_call env tc.name args
          runToolCalls env parseArgs rest
            (msgs ++ [Message.tool tc.id tc.name r]) (ti + 1)

namespace SQLAgentWithTools

/-- The `while iteration < max_iterations` loop of `ask`, with
`fuel = max_iterations - iteration` remaining iterations.  Returns the
result (`.error e` models an uncaught exception propagating out of `ask`,
`.ok c` the returned `response_message.content` or exhaustion message),
the number of reasoning-engine calls made, and the number of dispatcher
invocations. -/
def askLoop (env : Env) (engine : List Message → AssistantMessage)
    (parseArgs : String → Except String Args) :
    List Message → Nat → Nat → Nat →
      Except String (Option String) × Nat × Nat
  | _, ec, ti, 0 => (Except.ok (some maxIterationsMessage), ec, ti)
  | msgs, ec, ti, fuel + 1 =>
      let rm := engine msgs
      let msgs1 := msgs ++ [Message.assistant rm]
      if rm.tool_calls.isEmpty then
        (Except.ok rm.content, ec + 1, ti)
      else
        match runToolCalls env parseArgs rm.tool_calls msgs1 ti with
        | (msgs2, ti1, none) => askLoop env engine parseArgs msgs2 (ec + 1) ti1 fuel
        | (_, ti1, some e) => (Except.error e, ec + 1, ti1)

/-- `SQLAgentWithTools.ask` (cell 5): build the initial conversation from
the system prompt and the question, then run the loop at most
`max_iterations` times (a Python `int`, so modelled as `Int`; a
non-positive budget never enters the loop body). -/
def ask (env : Env) (engine : List Message → AssistantMessage)
    (parseArgs : String → Except String Args) (question : String)
    (max_iterations : Int) : Except String (Option String) × Nat × Nat :=
  askLoop env engine parseArgs
    [Message.system system_message, Message.user question] 0 0
    max_iterations.toNat

end SQLAgentWithTools

/-! ## Concrete fixtures for witnesses and counterexamples -/

/-- A tiny Chinook-like schema for concrete runs. -/
def wDb : List Table :=
  [{ name := "Album",
     columns := [⟨"AlbumId", "INTEGER", true, true⟩,
       ⟨"Title", "NVARCHAR(160)", true, false⟩],
     rows := [[Json.num 1, Json.str "For Those About To Rock"],
       [Json.num 2, Json.str "Balls to the Wall"],
       [Json.num 3, Json.str "Restless and Wild"],
       [Json.num 4, Json.str "Let There Be Rock"]] },
   { name := "Artist",
     columns := [⟨"ArtistId", "INTEGER", true, true⟩,
       ⟨"Name", "NVARCHAR(120)", true, false⟩],
     rows := [[Json.num 1, Json.str "AC/DC"],
       [Json.num 2, Json.str "Accept"]] }]

/-- A concrete relational store: a few fixed queries with fixed results,
anything else a database error. -/
def wRunQuery : String → Except String (List Row) := fun q =>
  if q = "SELECT Name FROM Artist" then
    Except.ok [[("Name", Json.str "AC/DC")], [("Name", Json.str "Accept")]]
  else if q = "SELECT TrackId FROM Track" then
    Except.ok (List.replicate 101 [("TrackId", Json.num 7)])
  else if q = "SELECT Name FROM Artist WHERE Name = 'Nobody'" then
    Except.ok []
  else
    Except.error "Execution failed on sql"

/-- Models `json.loads` applied to engine text that is not valid JSON:
every input of interest here fails to parse. -/
def wParseJson : String → Except String Json := fun _ =>
  Except.error "Expecting value: line 1 column 1 (char 0)"

/-- A concrete environment for witnesses. -/
def wEnv : Env :=
  { runQuery := wRunQuery, db := wDb,
    checkerResp := fun _ => Except.ok (some "The query looks valid."),
    parseJson := wParseJson }

/-- A scripted reasoning engine that always requests one more tool call. -/
def wEngine : List Message → AssistantMessage := fun _ =>
  { content := none,
    tool_calls := [⟨"call_1", "list_sql_database", "wellformed"⟩] }

/-- A scripted reasoning engine whose single tool call carries an argument
payload that is not valid JSON. -/
def wEngineBadJson : List Message → AssistantMessage := fun _ =>
  { content := none,
    tool_calls := [⟨"call_1", "query_sql_database", "bad json"⟩] }

/-- Models `json.loads` on argument payloads: the scripted payload
`"bad json"` raises, anything else parses to the empty mapping. -/
def wParse : String → Except String Args := fun s =>
  if s = "bad json" then
    Except.error "Expecting value: line 1 column 1 (char 0)"
  else Except.ok []

/-! ## Dictionary lemmas for the `info_sql_database` loop -/

/-- Replacing the value at a present key makes it the looked-up value. -/
theorem lookup_map_replace (k : String) (v : Json) :
    ∀ d : List (String × Json), d.any (fun p => p.1 = k) = true →
      (d.map (fun p => if p.1 = k then (k, v) else p)).lookup k = some v
  | [], h => by simp at h
  | (a, b) :: d, h => by
      by_cases hp : a = k
      · rw [List.map_cons, if_pos hp, List.lookup_cons]
        simp
      · have hd : d.any (fun p => p.1 = k) = true := by
          simpa [List.any_cons, hp] using h
        rw [List.map_cons, if_neg hp, List.lookup_cons,
          beq_false_of_ne (fun h' => hp h'.symm)]
        exact lookup_map_replace k v d hd

/-- Appending a fresh key makes it the looked-up value. -/
theorem lookup_append_fresh (k : String) (v : Json) :
    ∀ d : List (String × Json), d.any (fun p => p.1 = k) = false →
      (d ++ [(k, v)]).lookup k = some v
  | [], _ => by
      rw [List.nil_append, List.lookup_cons]
      simp
  | (a, b) :: d, h => by
      have hp : ¬ a = k := by
        simp only [List.any_cons, Bool.or_eq_false_iff,
          decide_eq_false_iff_not] at h
        exact h.1
      have hd : d.any (fun p => p.1 = k) = false := by
        simp only [List.any_cons, Bool.or_eq_false_iff] at h
        exact h.2
      rw [List.cons_append, List.lookup_cons,
        beq_false_of_ne (fun h' => hp h'.symm)]
      exact lookup_append_fresh k v d hd

/-- `d[k] = v` makes `v` the value looked up at `k`. -/
theorem dictInsert_lookup_self (d : List (String × Json)) (k : String)
    (v : Json) : (dictInsert d k v).lookup k = some v := by
  unfold dictInsert
  by_cases h : d.any (fun p => p.1 = k) = true
  · rw [if_pos h]
    exact lookup_map_replace k v d h
  · rw [if_neg h]
    exact lookup_append_fresh k v d (Bool.eq_false_iff.mpr h)

/-- `d[k] = v` keeps every other present key present. -/
theorem dictInsert_lookup_isSome (d : List (String × Json)) (k k' : String)
    (v : Json) (h : (d.lookup k').isSome) :
    ((dictInsert d k v).lookup k').isSome := by
  by_cases hk : k' = k
  · subst hk
    rw [dictInsert_lookup_self]
    rfl
  · unfold dictInsert
    by_cases hany : d.any (fun p => p.1 = k) = true
    · rw [if_pos hany]
      have hmap : ∀ d : List (String × Json),
          (d.map (fun p => if p.1 = k then (k, v) else p)).lookup k' =
            d.lookup k' := by
        intro d
        induction d with
        | nil => rfl
        | cons p d ih =>
            obtain ⟨a, b⟩ := p
            by_cases hp : a = k
            · subst hp
              rw [List.map_cons, if_pos rfl, List.lookup_cons,
                List.lookup_cons, beq_false_of_ne hk]
              exact ih
            · rw [List.map_cons, if_neg hp, List.lookup_cons,
                List.lookup_cons]
              cases hkp : (k' == a) with
              | true => rfl
              | false => exact ih
      rw [hmap]
      exact h
    · rw [if_neg hany]
      obtain ⟨v', hv'⟩ := Option.isSome_iff_exists.mp h
      have happ : (d ++ [(k, v)]).lookup k' = some v' := by
        clear h hany
        induction d with
        | nil => simp [List.lookup] at hv'
        | cons p d ih =>
            obtain ⟨a, b⟩ := p
            rw [List.lookup_cons] at hv'
            rw [List.cons_append, List.lookup_cons]
            cases hkp : (k' == a) with
            | true => rw [hkp] at hv'; exact hv'
            | false => rw [hkp] at hv'; exact ih hv'
      rw [happ]
      rfl

/-- In a dict whose every pair satisfies `p.2 = entry p.1`, any looked-up
value is `entry` of its key. -/
theorem lookup_entry_invariant (entry : String → Json) :
    ∀ d : List (String × Json), (∀ p ∈ d, p.2 = entry p.1) →
      ∀ k v, d.lookup k = some v → v = entry k
  | [], _, k, v, h => by simp [List.lookup] at h
  | (a, b) :: d, hinv, k, v, h => by
      rw [List.lookup_cons] at h
      cases hkp : (k == a) with
      | true =>
          rw [hkp] at h
          have hk : k = a := eq_of_beq hkp
          have hb : b = entry a := hinv (a, b) (List.mem_cons_self _ d)
          simp only [Option.some.injEq] at h
          rw [← h, hb, hk]
      | false =>
          rw [hkp] at h
          exact lookup_entry_invariant entry d
            (fun q hq => hinv q (List.mem_cons_of_mem (a, b) hq)) k v h

/-- The pairwise invariant survives `d[k] = entry k`. -/
theorem dictInsert_entry_invariant (entry : String → Json)
    (d : List (String × Json)) (hinv : ∀ p ∈ d, p.2 = entry p.1)
    (k : String) : ∀ p ∈ dictInsert d k (entry k), p.2 = entry p.1 := by
  unfold dictInsert
  by_cases h : d.any (fun p => p.1 = k) = true
  · rw [if_pos h]
    intro p hp
    obtain ⟨q, hq, hpq⟩ := List.mem_map.mp hp
    by_cases hqk : q.1 = k
    · rw [if_pos hqk] at hpq
      rw [← hpq]
    · rw [if_neg hqk] at hpq
      rw [← hpq]
      exact hinv q hq
  · rw [if_neg h]
    intro p hp
    rcases List.mem_append.mp hp with hp | hp
    · exact hinv p hp
    · have : p = (k, entry k) := List.mem_singleton.mp hp
      rw [this]

/-- The `result["tables"][table_name] = ...` loop: every name of the list
(and every key already present with an `entry` value) looks up to its
`entry`. -/
theorem foldl_dictInsert_lookup (entry : String → Json) :
    ∀ (names : List String) (acc : List (String × Json)),
      (∀ p ∈ acc, p.2 = entry p.1) →
      ∀ tn, (tn ∈ names ∨ (acc.lookup tn).isSome) →
      ((names.foldl (fun d n => dictInsert d n (entry n)) acc).lookup tn) =
        some (entry tn)
  | [], acc, hinv, tn, h => by
      rcases h with h | h
      · simp at h
      · obtain ⟨v, hv⟩ := Option.isSome_iff_exists.mp h
        simp only [List.foldl_nil]
        rw [hv, lookup_entry_invariant entry acc hinv tn v hv]
  | n :: names, acc, hinv, tn, h => by
      simp only [List.foldl_cons]
      refine foldl_dictInsert_lookup entry names (dictInsert acc n (entry n))
        (dictInsert_entry_invariant entry acc hinv n) tn ?_
      rcases h with h | h
      · rcases List.mem_cons.mp h with h | h
        · subst h
          right
          rw [dictInsert_lookup_self]
          rfl
        · exact Or.inl h
      · exact Or.inr (dictInsert_lookup_isSome acc n tn (entry n) h)

/-! ## Loop lemmas for `ask` -/

/-- When every tool call of a batch has a parseable argument payload, the
ACT phase finishes without raising. -/
theorem runToolCalls_ok (env : Env) (parseArgs : String → Except String Args) :
    ∀ (tcs : List ToolCall) (msgs : List Message) (ti : Nat),
      (∀ tc ∈ tcs, ∃ a, parseArgs tc.arguments = Except.ok a) →
      ∃ msgs2 ti2, runToolCalls env parseArgs tcs msgs ti = (msgs2, ti2, none)
  | [], msgs, ti, _ => ⟨msgs, ti, rfl⟩
  | tc :: rest, msgs, ti, h => by
      obtain ⟨a, ha⟩ := h tc (List.mem_cons_self tc rest)
      rw [runToolCalls, ha]
      exact runToolCalls_ok env parseArgs rest _ _
        (fun tc' h' => h tc' (List.mem_cons_of_mem tc h'))

/-- Against an engine that always requests at least one tool call whose
payload parses, the loop burns its whole fuel and ends exhausted, with one
engine call per fuel unit. -/
theorem askLoop_exhausts (env : Env)
    (engine : List Message → AssistantMessage)
    (parseArgs : String → Except String Args)
    (htc : ∀ msgs, (engine msgs).tool_calls ≠ [])
    (hp : ∀ msgs, ∀ tc ∈ (engine msgs).tool_calls,
      ∃ a, parseArgs tc.arguments = Except.ok a) :
    ∀ (fuel : Nat) (msgs : List Message) (ec ti : Nat),
      ∃ ti2, SQLAgentWithTools.askLoop env engine parseArgs msgs ec ti fuel =
        (Except.ok (some maxIterationsMessage), ec + fuel, ti2)
  | 0, msgs, ec, ti => ⟨ti, rfl⟩
  | fuel + 1, msgs, ec, ti => by
      have hne : (engine msgs).tool_calls.isEmpty = false :=
        List.isEmpty_eq_false.mpr (htc msgs)
      obtain ⟨msgs2, ti1, hrun⟩ := runToolCalls_ok env parseArgs
        (engine msgs).tool_calls (msgs ++ [Message.assistant (engine msgs)])
        ti (hp msgs)
      obtain ⟨ti2, hloop⟩ := askLoop_exhausts env engine parseArgs htc hp
        fuel msgs2 (ec + 1) ti1
      refine ⟨ti2, ?_⟩
      rw [SQLAgentWithTools.askLoop]
      simp only [hne, Bool.false_eq_true, if_false, hrun]
      rw [hloop]
      have : ec + 1 + fuel = ec + (fuel + 1) := by omega
      rw [this]

/-! ## Claims -/

/-- Claim C1: against a reasoning engine that on every turn requests at
least one (well-formed) tool call, `ask` terminates after at most
`max_iterations` reasoning-engine calls and returns the fixed exhaustion
message — it never loops unboundedly. -/
theorem ask_exhausts_bounded (env : Env)
    (engine : List Message → AssistantMessage)
    (parseArgs : String → Except String Args) (question : String)
    (mi : Int)
    (htc : ∀ msgs, (engine msgs).tool_calls ≠ [])
    (hp : ∀ msgs, ∀ tc ∈ (engine msgs).tool_calls,
      ∃ a, parseArgs tc.arguments = Except.ok a) :
    (SQLAgentWithTools.ask env engine parseArgs question mi).1 =
      Except.ok (some maxIterationsMessage) ∧
    (SQLAgentWithTools.ask env engine parseArgs question mi).2.1 ≤
      mi.toNat := by
  obtain ⟨ti2, h⟩ := askLoop_exhausts env engine parseArgs htc hp mi.toNat
    [Message.system system_message, Message.user question] 0 0
  unfold SQLAgentWithTools.ask
  rw [h]
  refine ⟨rfl, ?_⟩
  show 0 + mi.toNat ≤ mi.toNat
  omega

/-- Witness for C1: the scripted always-calling engine with budget 3. -/
theorem ask_exhausts_bounded_witness :
    (SQLAgentWithTools.ask wEnv wEngine wParse "How many artists are there?"
        3).1 =
      Except.ok (some maxIterationsMessage) ∧
    (SQLAgentWithTools.ask wEnv wEngine wParse "How many artists are there?"
        3).2.1 ≤ (3 : Int).toNat :=
  ask_exhausts_bounded wEnv wEngine wParse "How many artists are there?" 3
    (fun _ => List.cons_ne_nil _ _)
    (fun _ tc h => by
      rcases List.mem_singleton.mp h with rfl
      exact ⟨[], rfl⟩)

/-- Claim C6: for every name in the comma-separated input, `info_sql_database`
keys an entry by that name: a per-table error entry when the name is
absent from the schema, the full column metadata with at most 3 sample
rows when it exists — so one bad name never aborts the whole call. -/
theorem info_sql_database_isolates (db : List Table) (tables tn : String)
    (hmem : tn ∈ parsedTableNames tables) :
    info_sql_database db tables =
      Json.obj [("tables", Json.obj (infoTablesDict db tables))] ∧
    (infoTablesDict db tables).lookup tn = some (tableEntry db tn) ∧
    (db.find? (fun t => t.name = tn) = none →
      tableEntry db tn =
        Json.obj [("error", Json.str
          ("Table '" ++ tn ++ "' does not exist"))]) ∧
    (∀ t : Table, db.find? (fun t => t.name = tn) = some t →
      tableEntry db tn = tableInfoJson t ∧ (sampleData t).length ≤ 3) := by
  refine ⟨rfl, ?_, ?_, ?_⟩
  · unfold infoTablesDict
    exact foldl_dictInsert_lookup (tableEntry db) (parsedTableNames tables) []
      (fun p hp => absurd hp (List.not_mem_nil p)) tn (Or.inl hmem)
  · intro h
    unfold tableEntry
    rw [h]
  · intro t h
    refine ⟨?_, ?_⟩
    · unfold tableEntry
      rw [h]
    · unfold sampleData
      simp only [List.length_map, List.length_take]
      omega

/-- Witness for C6: the call `info_sql_database(wDb, "Artist, Ghost")`,
whose first name exists and whose second does not. -/
theorem info_sql_database_isolates_witness :
    info_sql_database wDb "Artist, Ghost" =
      Json.obj [("tables", Json.obj (infoTablesDict wDb "Artist, Ghost"))] ∧
    (infoTablesDict wDb "Artist, Ghost").lookup "Ghost" =
      some (tableEntry wDb "Ghost") ∧
    (wDb.find? (fun t => t.name = "Ghost") = none →
      tableEntry wDb "Ghost" =
        Json.obj [("error", Json.str "Table 'Ghost' does not exist")]) ∧
    (∀ t : Table, wDb.find? (fun t => t.name = "Ghost") = some t →
      tableEntry wDb "Ghost" = tableInfoJson t ∧ (sampleData t).length ≤ 3) :=
  info_sql_database_isolates wDb "Artist, Ghost" "Ghost" (by decide)

/-- Claim C4: a result set of more than 100 rows is truncated: the `data`
field holds exactly the first 100 records, `total_rows` the true count,
and the message states the truncation to the first 100 rows. -/
theorem query_sql_database_truncates
    (runQuery : String → Except String (List Row)) (query : String)
    (rows : List Row) (hq : runQuery query = Except.ok rows)
    (hlen : rows.length > 100) :
    Json.lookupField (query_sql_database runQuery query) "data" =
      some (Json.arr ((rows.take 100).map Json.obj)) ∧
    ((rows.take 100).map Json.obj).length = 100 ∧
    Json.lookupField (query_sql_database runQuery query) "total_rows" =
      some (Json.num rows.length) ∧
    Json.lookupField (query_sql_database runQuery query) "message" =
      some (Json.str ("Query returned " ++ toString rows.length ++
        " rows. Showing first 100 rows.")) := by
  have hne : rows.isEmpty = false := by
    cases rows with
    | nil => simp at hlen
    | cons a l => rfl
  unfold query_sql_database
  rw [hq]
  simp only [hne, Bool.false_eq_true, if_false, if_pos hlen]
  refine ⟨rfl, ?_, rfl, rfl⟩
  simp [List.length_take]
  omega

/-- Witness for C4: a 101-row result set. -/
theorem query_sql_database_truncates_witness :
    Json.lookupField (query_sql_database wRunQuery "SELECT TrackId FROM Track")
        "data" =
      some (Json.arr (((List.replicate 101
        ([("TrackId", Json.num 7)] : Row)).take 100).map Json.obj)) ∧
    (((List.replicate 101 ([("TrackId", Json.num 7)] : Row)).take 100).map
      Json.obj).length = 100 ∧
    Json.lookupField (query_sql_database wRunQuery "SELECT TrackId FROM Track")
        "total_rows" =
      some (Json.num (List.replicate 101
        ([("TrackId", Json.num 7)] : Row)).length) ∧
    Json.lookupField (query_sql_database wRunQuery "SELECT TrackId FROM Track")
        "message" =
      some (Json.str ("Query returned " ++
        toString (List.replicate 101 ([("TrackId", Json.num 7)] : Row)).length ++
        " rows. Showing first 100 rows.")) :=
  query_sql_database_truncates wRunQuery "SELECT TrackId FROM Track"
    (List.replicate 101 [("TrackId", Json.num 7)]) rfl
    (by simp)

/-- Claim C5: an empty result set yields only the neutral no-rows message;
in particular the result has no `data` field at all. -/
theorem query_sql_database_empty
    (runQuery : String → Except String (List Row)) (query : String)
    (hq : runQuery query = Except.ok ([] : List Row)) :
    query_sql_database runQuery query =
      Json.obj [("message", Json.str
        "Query executed successfully but returned no results.")] ∧
    Json.lookupField (query_sql_database runQuery query) "data" = none := by
  unfold query_sql_database
  rw [hq]
  exact ⟨rfl, rfl⟩

/-- Witness for C5: a query matching no rows. -/
theorem query_sql_database_empty_witness :
    query_sql_database wRunQuery "SELECT Name FROM Artist WHERE Name = 'Nobody'" =
      Json.obj [("message", Json.str
        "Query executed successfully but returned no results.")] ∧
    Json.lookupField
      (query_sql_database wRunQuery "SELECT Name FROM Artist WHERE Name = 'Nobody'")
      "data" = none :=
  query_sql_database_empty wRunQuery
    "SELECT Name FROM Artist WHERE Name = 'Nobody'" rfl

/-- Claim C7: the dispatcher returns the structured not-found error for
every unregistered tool name and every argument payload; being a total
function into `Json`, it can raise no exception. -/
theorem execute_function_call_unknown (env : Env) (name : String)
    (args : Args) (h : ¬ name ∈ registeredNames) :
    execute_function_call env name args =
      Json.obj [("error", Json.str ("Function " ++ name ++ " not found"))] := by
  unfold execute_function_call
  rw [if_neg h]

/-- Witness for C7: a hallucinated tool name. -/
theorem execute_function_call_unknown_witness :
    execute_function_call wEnv "search_web" [("query", "chinook")] =
      Json.obj [("error", Json.str "Function search_web not found")] :=
  execute_function_call_unknown wEnv "search_web" [("query", "chinook")]
    (by decide)

/-- Claim C8: the registered zero-argument `list_sql_database` is invoked
with no arguments whatever the payload holds; every other registered tool
is invoked with the payload expanded as named parameters; an exception
raised by the expansion or invocation is wrapped into a structured
`error` result instead of propagating. -/
theorem execute_function_call_dispatch (env : Env) (name : String)
    (args : Args) (e : String) (hreg : name ∈ registeredNames)
    (hlist : ¬ name = "list_sql_database")
    (herr : callWithArgs env name args = Except.error e) :
    execute_function_call env name args = Json.obj [("error", Json.str e)] ∧
    (∀ payload : Args,
      execute_function_call env "list_sql_database" payload =
        list_sql_database env.db) ∧
    (∀ q : String,
      execute_function_call env "query_sql_database" [("query", q)] =
        query_sql_database env.runQuery q) ∧
    (∀ t : String,
      execute_function_call env "info_sql_database" [("tables", t)] =
        info_sql_database env.db t) ∧
    (∀ q : String,
      execute_function_call env "query_sql_checker" [("query", q)] =
        query_sql_checker (env.checkerResp q) env.parseJson q) := by
  refine ⟨?_, fun payload => rfl, fun q => rfl, fun t => rfl, fun q => rfl⟩
  unfold execute_function_call
  rw [if_pos hreg, if_neg hlist, herr]

/-- Witness for C8: a payload missing the required `query` parameter makes
the expansion raise, and the dispatcher wraps it. -/
theorem execute_function_call_dispatch_witness :
    execute_function_call wEnv "query_sql_database" [] =
      Json.obj [("error", Json.str
        "missing 1 required positional argument: 'query'")] ∧
    (∀ payload : Args,
      execute_function_call wEnv "list_sql_database" payload =
        list_sql_database wEnv.db) ∧
    (∀ q : String,
      execute_function_call wEnv "query_sql_database" [("query", q)] =
        query_sql_database wEnv.runQuery q) ∧
    (∀ t : String,
      execute_function_call wEnv "info_sql_database" [("tables", t)] =
        info_sql_database wEnv.db t) ∧
    (∀ q : String,
      execute_function_call wEnv "query_sql_checker" [("query", q)] =
        query_sql_checker (wEnv.checkerResp q) wEnv.parseJson q) :=
  execute_function_call_dispatch wEnv "query_sql_database" []
    "missing 1 required positional argument: 'query'"
    (by decide) (by decide) rfl

/-- Claim C10: a non-positive iteration budget never enters the loop body:
`ask` returns the fixed exhaustion message with zero reasoning-engine
calls and zero dispatcher invocations. -/
theorem ask_nonpositive_budget (env : Env)
    (engine : List Message → AssistantMessage)
    (parseArgs : String → Except String Args) (question : String)
    (mi : Int) (h : mi ≤ 0) :
    SQLAgentWithTools.ask env engine parseArgs question mi =
      (Except.ok (some maxIterationsMessage), 0, 0) := by
  unfold SQLAgentWithTools.ask
  rw [Int.toNat_of_nonpos h]
  rfl

/-- Witness for C10: budget `-3`. -/
theorem ask_nonpositive_budget_witness :
    SQLAgentWithTools.ask wEnv wEngine wParse "How many artists are there?"
        (-3) =
      (Except.ok (some maxIterationsMessage), 0, 0) :=
  ask_nonpositive_budget wEnv wEngine wParse "How many artists are there?"
    (-3) (by decide)

/-- Counterexample to claim C2 as stated: a scripted engine emits one tool
call whose argument payload is not valid JSON.  `ask` ends with the raised
parse error escaping (the `Except.error` result), after one engine call
and zero dispatcher invocations — no tool message carrying a structured
error is ever appended, contradicting both the claimed dispatcher routing
and the claimed absence of an exception. -/
theorem ask_bad_json_escapes :
    SQLAgentWithTools.ask wEnv wEngineBadJson wParse
        "How many artists are there?" 5 =
      (Except.error "Expecting value: line 1 column 1 (char 0)", 1, 0) := rfl

/-- Claim C2 as amended: in ACT, a tool call whose argument payload fails
JSON parsing makes `json.loads` raise, and the exception propagates out of
`ask` — the Dispatcher is never invoked for it and no tool message is
appended (here: the first call of the batch fails, so zero dispatcher
invocations happen). -/
theorem ask_parse_failure_raises (env : Env)
    (engine : List Message → AssistantMessage)
    (parseArgs : String → Except String Args) (question : String)
    (mi : Int) (tc : ToolCall) (rest : List ToolCall) (e : String)
    (hmi : 0 < mi)
    (heng : (engine [Message.system system_message,
      Message.user question]).tool_calls = tc :: rest)
    (hparse : parseArgs tc.arguments = Except.error e) :
    SQLAgentWithTools.ask env engine parseArgs question mi =
      (Except.error e, 1, 0) := by
  unfold SQLAgentWithTools.ask
  obtain ⟨k, hk⟩ : ∃ k, mi.toNat = k + 1 := ⟨mi.toNat - 1, by omega⟩
  rw [hk]
  simp only [SQLAgentWithTools.askLoop, heng, List.isEmpty_cons,
    Bool.false_eq_true, if_false, runToolCalls, hparse]

/-- Witness for the amended C2: the concrete bad-JSON engine. -/
theorem ask_parse_failure_raises_witness :
    SQLAgentWithTools.ask wEnv wEngineBadJson wParse
        "List the albums." 2 =
      (Except.error "Expecting value: line 1 column 1 (char 0)", 1, 0) :=
  ask_parse_failure_raises wEnv wEngineBadJson wParse "List the albums." 2
    ⟨"call_1", "query_sql_database", "bad json"⟩ [] _
    (by decide) rfl rfl

/-- Claim C9: `list_sql_database` returns every table name, in ascending
lexical order (the `ORDER BY name` of its query), together with a count,
and — being a pure function of the schema — two calls against an unchanged
schema yield identical results. -/
theorem list_sql_database_deterministic (db : List Table) :
    list_sql_database db =
      Json.obj [("message", Json.str
          ("Found " ++ toString (listedTableNames db).length ++
            " tables in the database")),
        ("tables", Json.arr ((listedTableNames db).map Json.str))] ∧
    List.Sorted (fun a b : String => a ≤ b) (listedTableNames db) ∧
    (listedTableNames db).Perm (db.map Table.name) ∧
    (listedTableNames db).length = (db.map Table.name).length ∧
    list_sql_database db = list_sql_database db := by
  refine ⟨rfl, ?_, ?_, ?_, rfl⟩
  · exact List.sorted_insertionSort _ _
  · exact List.perm_insertionSort _ _
  · exact (List.perm_insertionSort (fun a b : String => a ≤ b)
      (db.map Table.name)).length_eq

/-- Claim C3 (code bug): when the validation engine's reply is not
parseable JSON, `query_sql_checker` does synthesize a graceful result with
`corrected_query` = the input and `explanation` = the raw engine text, but
the boolean lands under the key `has_errors` (plus a stray `errors` list):
the `has_error` key that the claim — and the tool's own system prompt —
require is absent from the synthesized result. -/
theorem query_sql_checker_fallback_keys :
    query_sql_checker (Except.ok (some "The query looks valid.")) wParseJson
        "SELECT * FROM Artist" =
      Json.obj [("has_errors", Json.bool false), ("errors", Json.arr []),
        ("corrected_query", Json.str "SELECT * FROM Artist"),
        ("explanation", Json.str "The query looks valid.")] ∧
    Json.lookupField
      (query_sql_checker (Except.ok (some "The query looks valid."))
        wParseJson "SELECT * FROM Artist") "has_error" = none ∧
    Json.lookupField
      (query_sql_checker (Except.ok (some "The query looks valid."))
        wParseJson "SELECT * FROM Artist") "has_errors" =
      some (Json.bool false) ∧
    Json.lookupField
      (query_sql_checker (Except.ok (some "The query looks valid."))
        wParseJson "SELECT * FROM Artist") "corrected_query" =
      some (Json.str "SELECT * FROM Artist") ∧
    Json.lookupField
      (query_sql_checker (Except.ok (some "The query looks valid."))
        wParseJson "SELECT * FROM Artist") "explanation" =
      some (Json.str "The query looks valid.") :=
  ⟨rfl, rfl, rfl, rfl, rfl⟩
